import Mathlib

/-!
Verification of the lead engagement orchestration engine of the
Amber-Smart-Presales-Automation repository.

The Python sources are shallowly embedded: pure logic (the retry policy,
the ended-reason classifier, the callback time-phrase parser, the
sweep-selection filter) becomes Lean functions over the same data;
stateful handlers (the missed-call webhook path, the batch-campaign
worker) become explicit state-passing functions, with the externally
visible side effects (messages sent, conversation rows appended,
threads started) returned as counts or traces.

Timestamps are modelled as rational numbers of minutes (the retry ladder
is allowed to contain fractional hours such as 0.5), except in the
callback parser where natural-number minutes since a reference Monday
00:00 are used so that calendar operations (day start, weekday) are
plain arithmetic.
-/

namespace Presales

/-! ## String utilities

Python's `needle in haystack` substring test, modelled over `List Char`.
-/

/-- `leadsWith p s` is true when `p` is an initial segment of `s`. -/
def leadsWith : List Char → List Char → Bool
  | [], _ => true
  | _ :: _, [] => false
  | a :: as, b :: bs => a == b && leadsWith as bs

/-- `hasSubChars needle hay` is Python's `needle in hay` on char lists. -/
def hasSubChars (needle : List Char) : List Char → Bool
  | [] => leadsWith needle []
  | c :: cs => leadsWith needle (c :: cs) || hasSubChars needle cs

/-- Python's substring containment `needle in hay` on strings. -/
def hasSub (hay needle : String) : Bool :=
  hasSubChars needle.data hay.data

/-- ASCII lower-casing, as applied by `.lower()` to the ASCII payloads
this system handles. -/
def lowerStr (s : String) : String :=
  ⟨s.data.map Char.toLower⟩

/-- Python's `str.strip()`: drop whitespace from both ends. -/
def stripStr (s : String) : String :=
  ⟨((s.data.dropWhile Char.isWhitespace).reverse.dropWhile Char.isWhitespace).reverse⟩

/-- Python truthiness of an optional string: `None` and `""` are falsy. -/
def pyTruthyStr : Option String → Bool
  | none => false
  | some s => !(s == "")

/-! ## Retry policy (`src/retry_manager.py`, class `RetryManager`) -/

/-- Configuration state of `RetryManager`. -/
structure RetryManager where
  max_retries : Nat
  retry_intervals : List ℚ
  interval_unit : String
deriving DecidableEq

/-- `RetryManager.__init__`: an empty (falsy) interval list falls back to
the default ladder `[0.5, 24]`, and the unit string defaults to
`"hours"` and is lower-cased. -/
def RetryManager.make (max_retries : Nat) (retry_intervals : List ℚ)
    (interval_unit : String) : RetryManager :=
  { max_retries := max_retries
    retry_intervals := if retry_intervals = [] then [1/2, 24] else retry_intervals
    interval_unit := lowerStr (if interval_unit = "" then "hours" else interval_unit) }

/-- `RetryManager.can_retry`. -/
def RetryManager.can_retry (rm : RetryManager) (current_retry_count : Nat) : Bool :=
  current_retry_count < rm.max_retries

/-- The wait amount for a given retry index: the ladder entry when the
index is in range, else the last entry.  The `getLastD 0` default is
unreachable for managers built by `RetryManager.make`, whose ladder is
never empty. -/
def RetryManager.ladderAmount (rm : RetryManager) (current_retry_count : Nat) : ℚ :=
  if h : current_retry_count < rm.retry_intervals.length then
    rm.retry_intervals.get ⟨current_retry_count, h⟩
  else
    rm.retry_intervals.getLastD 0

/-- `RetryManager.get_next_retry_time`, with `now` the current time in
minutes. -/
def RetryManager.get_next_retry_time (rm : RetryManager) (now : ℚ)
    (current_retry_count : Nat) : Option ℚ :=
  if (rm.max_retries : Int) - 1 ≤ (current_retry_count : Int) then none
  else if rm.interval_unit = "minutes" then
    some (now + rm.ladderAmount current_retry_count)
  else
    some (now + 60 * rm.ladderAmount current_retry_count)

/-- `RetryManager.should_trigger_fallback`. -/
def RetryManager.should_trigger_fallback (rm : RetryManager)
    (current_retry_count : Nat) : Bool :=
  rm.max_retries ≤ current_retry_count

/-! ## Webhook handler (`src/webhook_handler.py`, class `WebhookHandler`) -/

/-- The per-lead sheet fields the missed-call path reads and writes.
`next_retry_time = none` models an empty cell. -/
structure Lead where
  call_status : String
  retry_count : Nat
  next_retry_time : Option ℚ
  email : String
  email_sent : Bool
  number : String
  whatsapp_number : String
  whatsapp_sent : Bool
deriving DecidableEq

/-- The `WebhookHandler` constructor arguments the missed-call path
consults: whether an email client and a WhatsApp client are wired in,
whether the WhatsApp fallback is enabled, and the fallback template
name (`none`/empty both falsy, as in Python). -/
structure HandlerConfig where
  email_client : Bool
  whatsapp_client : Bool
  whatsapp_enable_fallback : Bool
  whatsapp_fallback_template : Option String
deriving DecidableEq

/-- `WebhookHandler._maybe_send_missed_call_email`: skipped without an
email client, with a blank address, or when `email_sent` is already
true; otherwise the email goes out, the flag is set, and one
`Conversations` row with channel `email` is appended (the returned
count). -/
def maybeSendMissedCallEmail (cfg : HandlerConfig) (lead : Lead) : Lead × Nat :=
  if !cfg.email_client then (lead, 0)
  else if stripStr lead.email == "" || lead.email_sent then (lead, 0)
  else ({ lead with email_sent := true }, 1)

/-- `WebhookHandler._maybe_send_whatsapp_fallback`: skipped when the
fallback is disabled, no client or template is configured, or the lead
has no usable number; otherwise the template goes out, `whatsapp_sent`
is set, and one `Conversations` row with channel `whatsapp` is appended
(the returned count).  The existing `whatsapp_sent` value is never
consulted. -/
def maybeSendWhatsappFallback (cfg : HandlerConfig) (lead : Lead) : Lead × Nat :=
  if !cfg.whatsapp_enable_fallback || !cfg.whatsapp_client ||
      !pyTruthyStr cfg.whatsapp_fallback_template then (lead, 0)
  else
    let to_number :=
      stripStr (if lead.whatsapp_number == "" then lead.number else lead.whatsapp_number)
    if to_number == "" then (lead, 0)
    else ({ lead with whatsapp_sent := true }, 1)

/-- Externally visible effects of one missed-call event: conversation
rows appended per channel and the number of times the exhaustion-path
fallback sequencer (`_maybe_send_whatsapp_fallback` after persisting
`next_retry_time = ""`) was invoked. -/
structure SendLog where
  emails : Nat
  whatsapps : Nat
  fallbackCalls : Nat
deriving DecidableEq

/-- `WebhookHandler._handle_missed_call`: read the current retry count,
attempt the once-only missed-call email, then either schedule a retry
(increment count, compute the next retry time, persist status `missed`)
or, when retries are exhausted, persist status `missed` with a cleared
retry time and invoke the WhatsApp fallback. -/
def handleMissedCall (cfg : HandlerConfig) (rm : RetryManager) (now : ℚ)
    (lead : Lead) : Lead × SendLog :=
  let c := lead.retry_count
  let r1 := maybeSendMissedCallEmail cfg lead
  if rm.can_retry c then
    ({ r1.1 with call_status := "missed", retry_count := c + 1,
                 next_retry_time := rm.get_next_retry_time now c },
     ⟨r1.2, 0, 0⟩)
  else
    let l2 := { r1.1 with call_status := "missed", next_retry_time := none }
    let r2 := maybeSendWhatsappFallback cfg l2
    (r2.1, ⟨r1.2, r2.2, 1⟩)

/-- The three actions `handle_event` can take on a `status-update`
event after resolving the lead row: persist `answered`, enter the
missed-call path, or persist `completed` with the raw ended reason. -/
inductive StatusAction where
  | setAnswered
  | missedPath
  | setCompleted (last_ended_reason : String)
deriving DecidableEq

/-- The missed-like keyword set of `handle_event`. -/
def missedKeywords : List String :=
  ["no-answer", "noanswer", "rejected", "busy", "timeout", "cancelled", "canceled",
   "unavailable", "486", "487", "480"]

/-- The failed-like keyword set of `handle_event`. -/
def failedKeywords : List String :=
  ["failed", "error", "providerfault", "server-error", "503", "500"]

/-- The `status-update` branch of `WebhookHandler.handle_event`:
`answered` is persisted immediately; `missed`/`failed` route to the
missed-call path; `ended` is classified by the answered marker and the
keyword sets (missed-like scanned first); anything else falls through
to the `completed` write. -/
def statusUpdateAction (status : String) (ended_reason : String)
    (answered_at : Option String) : StatusAction :=
  if status == "answered" then .setAnswered
  else if status == "missed" || status == "failed" then .missedPath
  else if status == "ended" then
    let reason := lowerStr ended_reason
    if !pyTruthyStr answered_at then .missedPath
    else if missedKeywords.any (fun k => hasSub reason k) then .missedPath
    else if failedKeywords.any (fun k => hasSub reason k) then .missedPath
    else .setCompleted ended_reason
  else .setCompleted ended_reason

/-- Per-lead batch-job bookkeeping counters (`BatchCallJob`). -/
structure JobCounters where
  calls_initiated : Nat
  calls_successful : Nat
  calls_failed : Nat
  errors : Nat
deriving DecidableEq

/-- The five control-flow exits of `BatchCallWorker._call_single_lead`:
missing UUID/number, gateway error result, successful initiation with
the sheet write succeeding, successful initiation with the sheet write
failing after its retries, and a raised exception. -/
inductive CallOutcome where
  | missingInfo
  | gatewayError
  | initiatedPersisted
  | initiatedPersistFailed
  | exceptionRaised
deriving DecidableEq

/-- `BatchCallWorker._call_single_lead`: the counter updates performed
under the job lock on each exit, together with the `retry_count` value
persisted to the sheet (`some` exactly when the batched write with
`"retry_count": str(current_retry_count + 1)` goes through). -/
def callSingleLead (j : JobCounters) (retryCount : Nat) (o : CallOutcome) :
    JobCounters × Option Nat :=
  match o with
  | .missingInfo =>
      ({ j with calls_failed := j.calls_failed + 1,
                calls_initiated := j.calls_initiated + 1,
                errors := j.errors + 1 }, none)
  | .gatewayError =>
      ({ j with calls_failed := j.calls_failed + 1,
                calls_initiated := j.calls_initiated + 1,
                errors := j.errors + 1 }, none)
  | .initiatedPersisted =>
      ({ j with calls_successful := j.calls_successful + 1,
                calls_initiated := j.calls_initiated + 1 }, some (retryCount + 1))
  | .initiatedPersistFailed =>
      ({ j with calls_successful := j.calls_successful + 1,
                calls_initiated := j.calls_initiated + 1,
                errors := j.errors + 1 }, none)
  | .exceptionRaised =>
      ({ j with calls_failed := j.calls_failed + 1,
                calls_initiated := j.calls_initiated + 1,
                errors := j.errors + 1 }, none)

/-! ## Lead repository sweep (`src/sheets_manager.py`, `get_pending_leads`)
and the scheduler job that drives it (`src/scheduler.py`,
`run_call_orchestrator_job`). -/

/-- The two sheet columns the sweep filter reads.  `next_retry_time` is
the raw cell text; an empty cell reads as `""`. -/
structure SheetRow where
  call_status : String
  next_retry_time : String
deriving DecidableEq

/-- `SheetsManager.get_pending_leads`: keep `pending` rows (unless
`only_retry`), and `missed`/`failed` rows whose non-empty
`next_retry_time` parses to a time `<= now` — or fails to parse at all
(`datetime.fromisoformat` raising is treated as due).  `fromIso` stands
for the ambient timestamp parser. -/
def getPendingLeads (fromIso : String → Option ℚ) (now : ℚ) (only_retry : Bool)
    (rows : List SheetRow) : List SheetRow :=
  rows.filter (fun lead =>
    (lead.call_status == "pending" && !only_retry) ||
    ((lead.call_status == "missed" || lead.call_status == "failed") &&
      !(lead.next_retry_time == "") &&
      (match fromIso lead.next_retry_time with
       | some t => decide (t ≤ now)
       | none => true)))

/-- The lead selection made by every periodic orchestrator sweep: both
the LangGraph path and the legacy path of `run_call_orchestrator_job`
call `get_pending_leads(only_retry=True)`. -/
def orchestratorSelection (fromIso : String → Option ℚ) (now : ℚ)
    (rows : List SheetRow) : List SheetRow :=
  getPendingLeads fromIso now true rows

/-- A concrete stand-in timestamp parser for evaluating the sweep on
closed inputs: two known cell texts parse, everything else raises. -/
def demoParse (s : String) : Option ℚ :=
  if s = "5" then some 5 else if s = "200" then some 200 else none

/-! ## Batch campaign worker (`src/batch_caller.py`, `BatchCallWorker._worker`)

The worker thread is sequential apart from the per-batch call threads it
joins, so it is modelled as a recursion over the batches.  External
cancellation (`cancel_job` or job replacement flips `status` to
`"cancelled"` exactly once, and nothing ever flips it back while the
worker runs) is modelled by the check index from which reads of the
status observe `"cancelled"`: the worker reads the status under the job
lock at a well-defined sequence of checkpoints, numbered in order. -/

/-- Whether the status read at checkpoint `k` observes `"cancelled"`,
given that the flip became visible from checkpoint `c` on (`none` for a
job that is never cancelled). -/
def cancelledAt (cancelFrom : Option Nat) (k : Nat) : Bool :=
  match cancelFrom with
  | none => false
  | some c => c ≤ k

/-- `range(0, len(leads), parallel_calls)` batching: consecutive chunks
of `p` leads (the fuel is only a termination device; it is never
exhausted when `0 < p`). -/
def chunksF {α : Type} : Nat → Nat → List α → List (List α)
  | 0, _, _ => []
  | _ + 1, _, [] => []
  | fuel + 1, p, l => l.take p :: chunksF fuel p (l.drop p)

/-- The batches `leads[i:i+parallel_calls]` for `i = 0, p, 2p, ...`. -/
def chunks {α : Type} (p : Nat) (l : List α) : List (List α) :=
  chunksF l.length p l

/-- The inner per-batch loop: before each call a cancellation check is
consumed; observing `"cancelled"` breaks out, otherwise a call thread
is started for the lead.  Returns the leads actually called and the
next checkpoint number. -/
def runBatchLeads {α : Type} (cancelFrom : Option Nat) (k : Nat) :
    List α → List α × Nat
  | [] => ([], k)
  | x :: xs =>
    if cancelledAt cancelFrom k then ([], k + 1)
    else
      let r := runBatchLeads cancelFrom (k + 1) xs
      (x :: r.1, r.2)

/-- The outer batch loop of `_worker`: one cancellation check before
each batch (observing `"cancelled"` breaks out of the loop), the
per-call checks, then the post-batch check that guards the pacing
sleep.  Returns the per-batch lists of leads actually called, the next
checkpoint number, and whether the loop broke out at a batch
boundary. -/
def runWorkerAux {α : Type} (cancelFrom : Option Nat) :
    Nat → List (List α) → List (List α) × Nat × Bool
  | k, [] => ([], k, false)
  | k, b :: bs =>
    if cancelledAt cancelFrom k then ([], k + 1, true)
    else
      let r := runBatchLeads cancelFrom (k + 1) b
      let rest := runWorkerAux cancelFrom (r.2 + 1) bs
      (r.1 :: rest.1, rest.2.1, rest.2.2)

/-- `BatchCallWorker._worker` end to end: chunk the leads, run the batch
loop, then take the final status check — a job never observed as
cancelled is marked `"completed"`, otherwise the externally written
`"cancelled"` stands.  Returns the per-batch called leads and the final
job status. -/
def runWorker {α : Type} (cancelFrom : Option Nat) (leads : List α)
    (parallel_calls : Nat) : List (List α) × String :=
  let r := runWorkerAux cancelFrom 0 (chunks parallel_calls leads)
  if cancelledAt cancelFrom r.2.1 then (r.1, "cancelled")
  else (r.1, "completed")

/-! ## Scheduler-sweep retry writes

The sweep drives each selected lead either through the legacy
orchestrator (`src/call_orchestrator.py`) or through the LangGraph
workflow (`src/workflows/lead_workflow.py`).  The legacy path's only
per-lead write is `SheetsManager.update_lead_call_initiated`; the
workflow path touches `retry_count` only in `increment_retry_node`,
whose sole inbound edge is the `"retry"` branch of the conditional edge
keyed by `check_retry_node`. -/

/-- The three outcomes of `check_retry_node`, keying the conditional
edges out of the `check_retry` node. -/
inductive RetryDecision where
  | complete
  | retry
  | fallback
deriving DecidableEq

/-- `check_retry_node`: a completed call is done; otherwise retry while
`retry_count < max_retries`, else fall back. -/
def check_retry_node (call_status : String) (retry_count max_retries : Nat) :
    RetryDecision :=
  if call_status == "completed" then .complete
  else if retry_count < max_retries then .retry
  else .fallback

/-- The sheet write of `increment_retry_node`: the persisted
`retry_count` (the old count plus one) and `next_retry_time`
(computed from the old count), alongside `call_status = "missed"`. -/
def increment_retry_node (rm : RetryManager) (now : ℚ) (retry_count : Nat) :
    Nat × Option ℚ :=
  (retry_count + 1, rm.get_next_retry_time now retry_count)

/-- The sheet columns `SheetsManager.update_lead_call_initiated` can
touch — the only per-lead write the legacy orchestrator path performs
after a successful initiation. -/
def update_lead_call_initiated_columns : List String :=
  ["call_status", "last_call_time", "vapi_call_id"]

/-! ## Callback time-phrase parsing (`src/webhook_handler.py`,
`_parse_callback_time` and `_extract_callback_request`)

The four regular expressions are embedded as backtracking matchers over
`List Char` with the list-of-successes technique: each matcher returns
its alternatives in regex priority order (leftmost match, greedy
quantifiers, alternation left-first), and a search takes the first
success at the leftmost matching position — exactly `re.search`'s
semantics for these patterns.

Timestamps here are natural-number minutes since a reference Monday
00:00, so `datetime.replace(hour, minute)`, `timedelta` addition and
`weekday()` (Monday = 0) are plain arithmetic. -/

/-- A nondeterministic matcher: all ways to consume input, in priority
order. -/
def MPar (α : Type) : Type := List Char → List (α × List Char)

instance : Monad MPar where
  pure a := fun s => [(a, s)]
  bind p f := fun s => (p s).flatMap (fun x => f x.1 x.2)

/-- Alternation, left alternative first. -/
def mpAlt {α : Type} (p q : MPar α) : MPar α := fun s => p s ++ q s

/-- Match one literal character. -/
def mpChar (c : Char) : MPar Unit := fun s =>
  match s with
  | d :: rest => if d == c then [((), rest)] else []
  | [] => []

/-- Match a literal string. -/
def mpStr (w : String) : MPar Unit := fun s =>
  if leadsWith w.data s then [((), s.drop w.data.length)] else []

/-- Greedy optional: try the present alternative first. -/
def mpOpt {α : Type} (p : MPar α) : MPar (Option α) :=
  mpAlt (do let a ← p; pure (some a)) (pure none)

/-- Length of the leading whitespace run. -/
def wsRun : List Char → Nat
  | [] => 0
  | c :: cs => if c.isWhitespace then wsRun cs + 1 else 0

/-- `\s+`: consume at least one whitespace character, longest first. -/
def mpWs1 : MPar Unit := fun s =>
  let m := wsRun s
  (List.range m).map (fun j => ((), s.drop (m - j)))

/-- `\s*`: consume any run of whitespace, longest first. -/
def mpWs0 : MPar Unit := fun s =>
  let m := wsRun s
  (List.range (m + 1)).map (fun j => ((), s.drop (m - j)))

/-- Numeric value of a digit character. -/
def digitVal (c : Char) : Nat := c.toNat - '0'.toNat

/-- Match a single digit. -/
def mpDigit : MPar Nat := fun s =>
  match s with
  | c :: rest => if c.isDigit then [(digitVal c, rest)] else []
  | [] => []

/-- `\d{2}`: exactly two digits. -/
def mpDigit2 : MPar Nat := do
  let a ← mpDigit
  let b ← mpDigit
  pure (10 * a + b)

/-- `\d{1,2}`: one or two digits, greedy. -/
def mpDigit12 : MPar Nat := mpAlt mpDigit2 mpDigit

/-- Length of the leading digit run. -/
def digitRun : List Char → Nat
  | [] => 0
  | c :: cs => if c.isDigit then digitRun cs + 1 else 0

/-- Numeric value of a digit list. -/
def natFromChars (cs : List Char) : Nat :=
  cs.foldl (fun acc c => 10 * acc + digitVal c) 0

/-- `\d+`: a non-empty digit run, longest first. -/
def mpNum : MPar Nat := fun s =>
  let m := digitRun s
  (List.range m).map (fun j => (natFromChars (s.take (m - j)), s.drop (m - j)))

/-- `(am|pm)`. -/
def mpAmPm : MPar String :=
  mpAlt (do mpStr "am"; pure "am") (do mpStr "pm"; pure "pm")

/-- `tomorrow\s+(?:at\s+)?(\d{1,2})(?::(\d{2}))?\s*(am|pm)?`. -/
def pTomorrow : MPar (Nat × Nat × Option String) := do
  mpStr "tomorrow"
  mpWs1
  _ ← mpOpt (do mpStr "at"; mpWs1)
  let h ← mpDigit12
  let m ← mpOpt (do mpChar ':'; mpDigit2)
  mpWs0
  let p ← mpOpt mpAmPm
  pure (h, m.getD 0, p)

/-- `(?:today\s+)?(?:at\s+)?(\d{1,2})(?::(\d{2}))?\s*(am|pm)`. -/
def pToday : MPar (Nat × Nat × String) := do
  _ ← mpOpt (do mpStr "today"; mpWs1)
  _ ← mpOpt (do mpStr "at"; mpWs1)
  let h ← mpDigit12
  let m ← mpOpt (do mpChar ':'; mpDigit2)
  mpWs0
  let p ← mpAmPm
  pure (h, m.getD 0, p)

/-- `in\s+(\d+)\s+(hour|minute)s?`. -/
def pRelative : MPar (Nat × String) := do
  mpStr "in"
  mpWs1
  let n ← mpNum
  mpWs1
  let u ← mpAlt (do mpStr "hour"; pure "hour") (do mpStr "minute"; pure "minute")
  _ ← mpOpt (mpStr "s")
  pure (n, u)

/-- `re.search`: first success at the leftmost matching position. -/
def mpSearch {α : Type} (p : MPar α) : List Char → Option α
  | [] =>
    match p [] with
    | r :: _ => some r.1
    | [] => none
  | c :: cs =>
    match p (c :: cs) with
    | r :: _ => some r.1
    | [] => mpSearch p cs

/-- Midnight of the day containing `t`. -/
def dayStart (t : Nat) : Nat := t / 1440 * 1440

/-- `datetime.replace(hour=h, minute=m, second=0, microsecond=0)`. -/
def replaceHM (t h m : Nat) : Nat := dayStart t + h * 60 + m

/-- `datetime.weekday()`: Monday is 0 (the reference epoch is a
Monday). -/
def weekdayOf (t : Nat) : Nat := t / 1440 % 7

/-- The 12-hour adjustment applied to a matched hour: `pm` adds 12 to
hours below 12, `am` maps hour 12 to 0, anything else leaves the hour
as matched. -/
def applyPeriod (h : Nat) (p : Option String) : Nat :=
  match p with
  | some s =>
    if s = "pm" then (if h < 12 then h + 12 else h)
    else if s = "am" then (if h = 12 then 0 else h)
    else h
  | none => h

/-- The weekday-name list scanned by the fourth rule, Monday first. -/
def daysOfWeek : List String :=
  ["monday", "tuesday", "wednesday", "thursday", "friday", "saturday", "sunday"]

/-- `WebhookHandler._parse_callback_time`: the four rules in source
order, first match winning; `none` when no rule matches. -/
def parseCallbackTime (now : Nat) (text : String) : Option Nat :=
  let tl := lowerStr text
  match mpSearch pTomorrow tl.data with
  | some (h, m, p) => some (replaceHM (now + 1440) (applyPeriod h p) m)
  | none =>
    match mpSearch pToday tl.data with
    | some (h, m, p) =>
      let hh := applyPeriod h (some p)
      let ct := replaceHM now hh m
      some (if ct < now then ct + 1440 else ct)
    | none =>
      match mpSearch pRelative tl.data with
      | some (n, u) =>
        some (if u = "hour" then now + 60 * n else now + n)
      | none =>
        match daysOfWeek.findIdx? (fun d => hasSub tl d) with
        | some i =>
          let ahead := (((i : Int) - (weekdayOf now : Int)) % 7).toNat
          let ahead2 := if ahead = 0 then 7 else ahead
          some (replaceHM (now + 1440 * ahead2) 10 0)
        | none => none

/-- The callback-intent keyword list of `_extract_callback_request`. -/
def callbackKeywords : List String :=
  ["call back", "callback", "call me back", "call later",
   "call tomorrow", "call at", "reach out later"]

/-- `WebhookHandler._extract_callback_request`: no keyword in the
summary means no callback; otherwise a truthy structured
`callback_time`/`preferred_contact_time` value is parsed first, then
the summary text, and an unparseable request defaults to 24 hours from
now. -/
def extractCallbackRequest (now : Nat) (summary : String)
    (structuredCallbackInfo : Option String) : Option Nat :=
  let sl := lowerStr summary
  if callbackKeywords.any (fun k => hasSub sl k) then
    match structuredCallbackInfo with
    | some info =>
      match parseCallbackTime now info with
      | some t => some t
      | none =>
        match parseCallbackTime now summary with
        | some t => some t
        | none => some (now + 24 * 60)
    | none =>
      match parseCallbackTime now summary with
      | some t => some t
      | none => some (now + 24 * 60)
  else none

/-- The `tomorrow` rule exactly as the claim words it — the `(am|pm)`
marker mandatory: `tomorrow [at] H[:MM] (am|pm)`.  The code's rule makes
the marker optional; this definition exists to compare the two. -/
def pTomorrowClaim : MPar (Nat × Nat × Option String) := do
  mpStr "tomorrow"
  mpWs1
  _ ← mpOpt (do mpStr "at"; mpWs1)
  let h ← mpDigit12
  let m ← mpOpt (do mpChar ':'; mpDigit2)
  mpWs0
  let p ← mpAmPm
  pure (h, m.getD 0, some p)

/-- The parser exactly as the claim words it: identical to
`parseCallbackTime` except that rule (a) requires the `(am|pm)`
marker. -/
def claimParseCallbackTime (now : Nat) (text : String) : Option Nat :=
  let tl := lowerStr text
  match mpSearch pTomorrowClaim tl.data with
  | some (h, m, p) => some (replaceHM (now + 1440) (applyPeriod h p) m)
  | none =>
    match mpSearch pToday tl.data with
    | some (h, m, p) =>
      let hh := applyPeriod h (some p)
      let ct := replaceHM now hh m
      some (if ct < now then ct + 1440 else ct)
    | none =>
      match mpSearch pRelative tl.data with
      | some (n, u) =>
        some (if u = "hour" then now + 60 * n else now + n)
      | none =>
        match daysOfWeek.findIdx? (fun d => hasSub tl d) with
        | some i =>
          let ahead := (((i : Int) - (weekdayOf now : Int)) % 7).toNat
          let ahead2 := if ahead = 0 then 7 else ahead
          some (replaceHM (now + 1440 * ahead2) 10 0)
        | none => none

/-- `_extract_callback_request` with the claim's rule list substituted
for the code's. -/
def claimExtractCallbackRequest (now : Nat) (summary : String)
    (structuredCallbackInfo : Option String) : Option Nat :=
  let sl := lowerStr summary
  if callbackKeywords.any (fun k => hasSub sl k) then
    match structuredCallbackInfo with
    | some info =>
      match claimParseCallbackTime now info with
      | some t => some t
      | none =>
        match claimParseCallbackTime now summary with
        | some t => some t
        | none => some (now + 24 * 60)
    | none =>
      match claimParseCallbackTime now summary with
      | some t => some t
      | none => some (now + 24 * 60)
  else none

/-! ## Theorems -/

/-- For a non-empty ladder, the reused last entry is the entry at the
clamped index. -/
theorem getLastD_eq_getD_pred (l : List ℚ) (_h : l ≠ []) :
    l.getLastD 0 = l.getD (l.length - 1) 0 := by
  simp [List.getLastD_eq_getLast?, List.getLast?_eq_getElem?,
    List.getD_eq_getElem?_getD]

/-- The missed-call email step only ever touches `email_sent`. -/
theorem maybeSendMissedCallEmail_fields (cfg : HandlerConfig) (lead : Lead) :
    ((maybeSendMissedCallEmail cfg lead).1.call_status = lead.call_status)
    ∧ ((maybeSendMissedCallEmail cfg lead).1.retry_count = lead.retry_count)
    ∧ ((maybeSendMissedCallEmail cfg lead).1.next_retry_time = lead.next_retry_time)
    ∧ ((maybeSendMissedCallEmail cfg lead).1.email = lead.email)
    ∧ ((maybeSendMissedCallEmail cfg lead).1.number = lead.number)
    ∧ ((maybeSendMissedCallEmail cfg lead).1.whatsapp_number = lead.whatsapp_number)
    ∧ ((maybeSendMissedCallEmail cfg lead).1.whatsapp_sent = lead.whatsapp_sent) := by
  unfold maybeSendMissedCallEmail
  split
  · simp
  split <;> simp

/-- The WhatsApp fallback step only ever touches `whatsapp_sent`. -/
theorem maybeSendWhatsappFallback_fields (cfg : HandlerConfig) (lead : Lead) :
    ((maybeSendWhatsappFallback cfg lead).1.call_status = lead.call_status)
    ∧ ((maybeSendWhatsappFallback cfg lead).1.retry_count = lead.retry_count)
    ∧ ((maybeSendWhatsappFallback cfg lead).1.next_retry_time = lead.next_retry_time)
    ∧ ((maybeSendWhatsappFallback cfg lead).1.email = lead.email)
    ∧ ((maybeSendWhatsappFallback cfg lead).1.email_sent = lead.email_sent) := by
  simp only [maybeSendWhatsappFallback]
  split_ifs <;> simp

/-- When the email conditions are all live, the email goes out once and
the flag is set. -/
theorem maybeSendMissedCallEmail_live (cfg : HandlerConfig) (lead : Lead)
    (hec : cfg.email_client = true) (hemail : stripStr lead.email ≠ "")
    (hesent : lead.email_sent = false) :
    maybeSendMissedCallEmail cfg lead = ({ lead with email_sent := true }, 1) := by
  unfold maybeSendMissedCallEmail
  simp [hec, hesent, hemail]

/-- When the email flag is already set, the email step is a no-op. -/
theorem maybeSendMissedCallEmail_already_sent (cfg : HandlerConfig) (lead : Lead)
    (hesent : lead.email_sent = true) :
    maybeSendMissedCallEmail cfg lead = (lead, 0) := by
  unfold maybeSendMissedCallEmail
  split
  · rfl
  simp [hesent]

/-- When the WhatsApp fallback conditions are all live, the template
goes out once — whatever the current value of `whatsapp_sent`. -/
theorem maybeSendWhatsappFallback_live (cfg : HandlerConfig) (lead : Lead)
    (hwc : cfg.whatsapp_client = true) (hwe : cfg.whatsapp_enable_fallback = true)
    (htpl : pyTruthyStr cfg.whatsapp_fallback_template = true)
    (hwnum : stripStr lead.whatsapp_number ≠ "") :
    maybeSendWhatsappFallback cfg lead = ({ lead with whatsapp_sent := true }, 1) := by
  have hwne : lead.whatsapp_number ≠ "" := by
    intro h0
    exact hwnum (by rw [h0]; decide)
  unfold maybeSendWhatsappFallback
  simp [hwc, hwe, htpl, hwne, hwnum]

/-- C6: `next_retry_at(retry_count)` is null exactly when
`retry_count >= max_retries - 1`; otherwise it is `now` plus the ladder
entry at `retry_count` (in the configured unit, 1 min or 60 min per
unit of amount), with the last ladder entry reused once `retry_count`
runs past the end of the ladder. -/
theorem next_retry_time_ladder (rm : RetryManager) (now : ℚ) (c : Nat)
    (hne : rm.retry_intervals ≠ []) :
    (rm.get_next_retry_time now c = none ↔
       (rm.max_retries : Int) - 1 ≤ (c : Int))
    ∧ ((c : Int) < (rm.max_retries : Int) - 1 →
        rm.get_next_retry_time now c =
          some (now + (if rm.interval_unit = "minutes" then 1 else 60) *
            rm.retry_intervals.getD (min c (rm.retry_intervals.length - 1)) 0)) := by
  have hlen : 0 < rm.retry_intervals.length := List.length_pos.mpr hne
  have hamt : rm.ladderAmount c =
      rm.retry_intervals.getD (min c (rm.retry_intervals.length - 1)) 0 := by
    unfold RetryManager.ladderAmount
    by_cases hc : c < rm.retry_intervals.length
    · rw [dif_pos hc]
      have hmin : min c (rm.retry_intervals.length - 1) = c := by omega
      rw [hmin]
      simp [List.getD_eq_getElem?_getD, List.getElem?_eq_getElem hc]
    · rw [dif_neg hc]
      have hmin : min c (rm.retry_intervals.length - 1) =
          rm.retry_intervals.length - 1 := by omega
      rw [hmin, getLastD_eq_getD_pred _ hne]
  constructor
  · unfold RetryManager.get_next_retry_time
    split
    · rename_i h; exact iff_of_true rfl h
    · rename_i h
      constructor
      · intro hnone
        revert hnone
        split <;> simp
      · intro hle; exact absurd hle h
  · intro hlt
    unfold RetryManager.get_next_retry_time
    rw [if_neg (by omega)]
    by_cases hu : rm.interval_unit = "minutes"
    · rw [if_pos hu, if_pos hu, hamt, one_mul]
    · rw [if_neg hu, if_neg hu, hamt]

/-- C6 witness, the spec's own example: with `intervals = [0.5h, 24h]`
and `max_retries = 2`, the first retry is scheduled 30 minutes out and
the second is not scheduled at all. -/
theorem next_retry_time_ladder_witness :
    (RetryManager.make 2 [1/2, 24] "hours").get_next_retry_time 0 0 = some 30 ∧
    (RetryManager.make 2 [1/2, 24] "hours").get_next_retry_time 0 1 = none := by
  have h0 := (next_retry_time_ladder (RetryManager.make 2 [1/2, 24] "hours") 0 0
    (by decide)).2 (by decide)
  have h1 := (next_retry_time_ladder (RetryManager.make 2 [1/2, 24] "hours") 0 1
    (by decide)).1.mpr (by decide)
  have hunit : (RetryManager.make 2 [1/2, 24] "hours").interval_unit = "hours" := rfl
  have hiv : (RetryManager.make 2 [1/2, 24] "hours").retry_intervals = [1/2, 24] := rfl
  refine ⟨?_, h1⟩
  rw [h0]
  norm_num [hunit, hiv]
  decide

/-- C5: an `ended` status-update with no answered marker always routes
to the missed-call path; with an answered marker it routes to the
missed-call path exactly when the lowered reason contains a missed-like
or failed-like keyword (the missed-like set is scanned first), and
otherwise the lead is completed with the raw reason stored. -/
theorem ended_event_classification (r : String) (a : Option String) :
    (pyTruthyStr a = false → statusUpdateAction "ended" r a = .missedPath)
    ∧ (pyTruthyStr a = true →
        (missedKeywords ++ failedKeywords).any (fun k => hasSub (lowerStr r) k) = true →
        statusUpdateAction "ended" r a = .missedPath)
    ∧ (pyTruthyStr a = true →
        (missedKeywords ++ failedKeywords).any (fun k => hasSub (lowerStr r) k) = false →
        statusUpdateAction "ended" r a = .setCompleted r) := by
  refine ⟨?_, ?_, ?_⟩
  · intro ha
    simp [statusUpdateAction, ha]
  · intro ha hk
    simp only [List.any_append, Bool.or_eq_true] at hk
    by_cases hm : missedKeywords.any (fun k => hasSub (lowerStr r) k) = true
    · simp [statusUpdateAction, ha, hm]
    · have hf : failedKeywords.any (fun k => hasSub (lowerStr r) k) = true := by
        rcases hk with h | h
        · exact absurd h hm
        · exact h
      simp [statusUpdateAction, ha, hm, hf]
  · intro ha hk
    simp only [List.any_append, Bool.or_eq_false_iff] at hk
    simp [statusUpdateAction, ha, hk.1, hk.2]

/-- C5 witness: a busy reason on an answered call, a neutral reason on
an answered call, and an unanswered call, all classified concretely. -/
theorem ended_event_classification_witness :
    (statusUpdateAction "ended" "customer-busy" (some "2025-01-01T10:00:00") =
      .missedPath)
    ∧ (statusUpdateAction "ended" "assistant-hangup" (some "2025-01-01T10:00:00") =
      .setCompleted "assistant-hangup")
    ∧ (statusUpdateAction "ended" "assistant-hangup" none = .missedPath) :=
  ⟨(ended_event_classification "customer-busy" (some "2025-01-01T10:00:00")).2.1
      (by decide) (by decide),
   (ended_event_classification "assistant-hangup" (some "2025-01-01T10:00:00")).2.2
      (by decide) (by decide),
   (ended_event_classification "assistant-hangup" none).1 (by decide)⟩

/-- On exhaustion the missed-call handler persists `missed` with a
cleared retry time and hands the lead to the WhatsApp fallback. -/
theorem handleMissedCall_exhausted (cfg : HandlerConfig) (rm : RetryManager)
    (now : ℚ) (lead : Lead) (hret : rm.can_retry lead.retry_count = false) :
    handleMissedCall cfg rm now lead =
      ((maybeSendWhatsappFallback cfg
          { (maybeSendMissedCallEmail cfg lead).1 with
              call_status := "missed", next_retry_time := none }).1,
        ⟨(maybeSendMissedCallEmail cfg lead).2,
         (maybeSendWhatsappFallback cfg
           { (maybeSendMissedCallEmail cfg lead).1 with
               call_status := "missed", next_retry_time := none }).2, 1⟩) := by
  simp [handleMissedCall, hret]

/-- While retries remain, the missed-call handler schedules a retry and
never touches the fallback sequencer. -/
theorem handleMissedCall_retryable (cfg : HandlerConfig) (rm : RetryManager)
    (now : ℚ) (lead : Lead) (hret : rm.can_retry lead.retry_count = true) :
    handleMissedCall cfg rm now lead =
      ({ (maybeSendMissedCallEmail cfg lead).1 with
           call_status := "missed", retry_count := lead.retry_count + 1,
           next_retry_time := rm.get_next_retry_time now lead.retry_count },
        ⟨(maybeSendMissedCallEmail cfg lead).2, 0, 0⟩) := by
  simp [handleMissedCall, hret]

/-- C1 counterexample: a lead with `retry_count = 2` under
`max_retries = 3` receiving a missed event takes the retryable branch —
`retry_count` does become 3 and `next_retry_time` is cleared, but the
fallback sequencer fires zero times, not once. -/
theorem missed_retry2_no_fallback_counterexample :
    ((handleMissedCall ⟨false, true, true, some "wa_fallback"⟩
        (RetryManager.make 3 [1/2, 24] "hours") 0
        ⟨"initiated", 2, none, "", false, "+911234567890", "+911234567890",
          false⟩).1.retry_count = 3)
    ∧ ((handleMissedCall ⟨false, true, true, some "wa_fallback"⟩
        (RetryManager.make 3 [1/2, 24] "hours") 0
        ⟨"initiated", 2, none, "", false, "+911234567890", "+911234567890",
          false⟩).1.next_retry_time = none)
    ∧ ¬ ((handleMissedCall ⟨false, true, true, some "wa_fallback"⟩
        (RetryManager.make 3 [1/2, 24] "hours") 0
        ⟨"initiated", 2, none, "", false, "+911234567890", "+911234567890",
          false⟩).2.fallbackCalls = 1) := by
  decide

/-- C1 amended: with `max_retries = 3`, a missed event on a lead with
`retry_count = 2` sets `retry_count` to 3 and `next_retry_time` to
null, and the fallback sequencer fires zero times during that event; it
fires (once) only when a further missed event arrives for the lead. -/
theorem missed_retry2_final_attempt (cfg : HandlerConfig) (rm : RetryManager)
    (now now2 : ℚ) (lead : Lead) (hmax : rm.max_retries = 3)
    (hc : lead.retry_count = 2) :
    ((handleMissedCall cfg rm now lead).1.retry_count = 3)
    ∧ ((handleMissedCall cfg rm now lead).1.next_retry_time = none)
    ∧ ((handleMissedCall cfg rm now lead).2.fallbackCalls = 0)
    ∧ ((handleMissedCall cfg rm now2
          (handleMissedCall cfg rm now lead).1).2.fallbackCalls = 1) := by
  have hcr : rm.can_retry lead.retry_count = true := by
    simp [RetryManager.can_retry, hc, hmax]
  have hnext : rm.get_next_retry_time now lead.retry_count = none := by
    rw [hc]
    unfold RetryManager.get_next_retry_time
    rw [if_pos (by rw [hmax]; decide)]
  have h1 := handleMissedCall_retryable cfg rm now lead hcr
  have hrc : (handleMissedCall cfg rm now lead).1.retry_count = 3 := by
    rw [h1, hc]
  have hcr2 : rm.can_retry (handleMissedCall cfg rm now lead).1.retry_count = false := by
    simp [RetryManager.can_retry, hrc, hmax]
  have h2 := handleMissedCall_exhausted cfg rm now2
    (handleMissedCall cfg rm now lead).1 hcr2
  refine ⟨hrc, ?_, ?_, ?_⟩
  · rw [h1, hnext]
  · rw [h1]
  · rw [h2]

/-- C1 amended-claim witness at a fully concrete lead and
configuration. -/
theorem missed_retry2_final_attempt_witness :
    ((handleMissedCall ⟨true, true, true, some "wa_fallback"⟩
        (RetryManager.make 3 [1/2, 24] "hours") 0
        ⟨"initiated", 2, none, "lead@example.com", false, "+911234567890",
          "+911234567890", false⟩).1.retry_count = 3)
    ∧ ((handleMissedCall ⟨true, true, true, some "wa_fallback"⟩
        (RetryManager.make 3 [1/2, 24] "hours") 0
        ⟨"initiated", 2, none, "lead@example.com", false, "+911234567890",
          "+911234567890", false⟩).2.fallbackCalls = 0) :=
  ⟨(missed_retry2_final_attempt ⟨true, true, true, some "wa_fallback"⟩
      (RetryManager.make 3 [1/2, 24] "hours") 0 0
      ⟨"initiated", 2, none, "lead@example.com", false, "+911234567890",
        "+911234567890", false⟩ (by decide) (by decide)).1,
   (missed_retry2_final_attempt ⟨true, true, true, some "wa_fallback"⟩
      (RetryManager.make 3 [1/2, 24] "hours") 0 0
      ⟨"initiated", 2, none, "lead@example.com", false, "+911234567890",
        "+911234567890", false⟩ (by decide) (by decide)).2.2.1⟩

/-- C2 counterexample: replaying the same exhaustion event (retries
spent, all channels configured) sends the WhatsApp fallback twice —
`whatsapp_sent` is written but never consulted — so the template is not
sent at most once. -/
theorem exhaustion_replay_whatsapp_double_counterexample :
    ¬ ((handleMissedCall ⟨true, true, true, some "wa_fallback"⟩
          (RetryManager.make 3 [1/2, 24] "hours") 0
          ⟨"missed", 3, none, "lead@example.com", false, "+911234567890",
            "+911234567890", false⟩).2.whatsapps +
        (handleMissedCall ⟨true, true, true, some "wa_fallback"⟩
          (RetryManager.make 3 [1/2, 24] "hours") 0
          ((handleMissedCall ⟨true, true, true, some "wa_fallback"⟩
            (RetryManager.make 3 [1/2, 24] "hours") 0
            ⟨"missed", 3, none, "lead@example.com", false, "+911234567890",
              "+911234567890", false⟩).1)).2.whatsapps ≤ 1) := by
  decide

/-- C2 amended: over two deliveries of the same exhaustion event, the
email — guarded by `email_sent` — goes out exactly once, but the
WhatsApp fallback goes out on both deliveries (two conversation rows),
because the send is gated only on configuration and a usable number,
never on `whatsapp_sent`. -/
theorem exhaustion_replay_send_counts (cfg : HandlerConfig) (rm : RetryManager)
    (now now2 : ℚ) (lead : Lead)
    (hret : rm.can_retry lead.retry_count = false)
    (hec : cfg.email_client = true) (hwc : cfg.whatsapp_client = true)
    (hwe : cfg.whatsapp_enable_fallback = true)
    (htpl : pyTruthyStr cfg.whatsapp_fallback_template = true)
    (hemail : stripStr lead.email ≠ "") (hesent : lead.email_sent = false)
    (hwnum : stripStr lead.whatsapp_number ≠ "") :
    ((handleMissedCall cfg rm now lead).2.emails +
      (handleMissedCall cfg rm now2 (handleMissedCall cfg rm now lead).1).2.emails
        = 1)
    ∧ ((handleMissedCall cfg rm now lead).2.whatsapps +
      (handleMissedCall cfg rm now2 (handleMissedCall cfg rm now lead).1).2.whatsapps
        = 2) := by
  have hwne : lead.whatsapp_number ≠ "" := fun h0 => hwnum (by rw [h0]; decide)
  constructor <;>
    simp [handleMissedCall, hret, maybeSendMissedCallEmail, maybeSendWhatsappFallback,
      hec, hwc, hwe, htpl, hemail, hesent, hwnum, hwne]

/-- C2 amended-claim witness at a fully concrete lead and
configuration. -/
theorem exhaustion_replay_send_counts_witness :
    ((handleMissedCall ⟨true, true, true, some "wa_fallback"⟩
        (RetryManager.make 3 [1/2, 24] "hours") 0
        ⟨"missed", 3, none, "lead@example.com", false, "+911234567890",
          "+911234567890", false⟩).2.emails +
      (handleMissedCall ⟨true, true, true, some "wa_fallback"⟩
        (RetryManager.make 3 [1/2, 24] "hours") 0
        ((handleMissedCall ⟨true, true, true, some "wa_fallback"⟩
          (RetryManager.make 3 [1/2, 24] "hours") 0
          ⟨"missed", 3, none, "lead@example.com", false, "+911234567890",
            "+911234567890", false⟩).1)).2.emails = 1) :=
  (exhaustion_replay_send_counts ⟨true, true, true, some "wa_fallback"⟩
    (RetryManager.make 3 [1/2, 24] "hours") 0 0
    ⟨"missed", 3, none, "lead@example.com", false, "+911234567890",
      "+911234567890", false⟩
    (by decide) (by decide) (by decide) (by decide) (by decide) (by decide)
    (by decide) (by decide)).1

/-- C3 counterexample: the batch worker's successful-initiation write
persists `retry_count + 1` without consulting `max_retries`; at
`retry_count = 3` under `max_retries = 3` it writes 4. -/
theorem batch_retry_exceeds_max_counterexample :
    ((callSingleLead ⟨0, 0, 0, 0⟩ 3 .initiatedPersisted).2 = some 4)
    ∧ ((RetryManager.make 3 [1/2, 24] "hours").max_retries = 3)
    ∧ ¬ (4 ≤ 3) := by
  decide

/-- C3 amended: the webhook missed-call path preserves
`retry_count <= max_retries` (it increments only when `can_retry`
holds), and so does the scheduler sweep — the workflow's
`increment_retry_node` is reached only through `check_retry_node`'s
`retry` branch, which requires `retry_count < max_retries`, and the
legacy orchestrator's initiation write touches no `retry_count` column
at all — but the batch worker persists `retry_count + 1` on every
successful initiation, unconditionally. -/
theorem retry_count_bound_split (cfg : HandlerConfig) (rm : RetryManager)
    (now now2 : ℚ) (lead : Lead) (j : JobCounters) (rc : Nat)
    (hb : lead.retry_count ≤ rm.max_retries) :
    ((handleMissedCall cfg rm now lead).1.retry_count ≤ rm.max_retries)
    ∧ (∀ (cs : String) (c mr : Nat), check_retry_node cs c mr = .retry →
        (increment_retry_node rm now2 c).1 ≤ mr)
    ∧ ("retry_count" ∉ update_lead_call_initiated_columns)
    ∧ ((callSingleLead j rc .initiatedPersisted).2 = some (rc + 1)) := by
  refine ⟨?_, ?_, by decide, rfl⟩
  · by_cases hcr : rm.can_retry lead.retry_count = true
    · have hlt : lead.retry_count < rm.max_retries := by
        simpa [RetryManager.can_retry] using hcr
      rw [handleMissedCall_retryable cfg rm now lead hcr]
      simpa using hlt
    · have hcr2 : rm.can_retry lead.retry_count = false :=
        Bool.eq_false_iff.mpr hcr
      rw [handleMissedCall_exhausted cfg rm now lead hcr2]
      simpa [(maybeSendWhatsappFallback_fields cfg _).2.1,
        (maybeSendMissedCallEmail_fields cfg lead).2.1] using hb
  · intro cs c mr hdec
    have hlt : c < mr := by
      unfold check_retry_node at hdec
      by_cases h1 : (cs == "completed") = true
      · rw [if_pos h1] at hdec
        exact absurd hdec (by decide)
      · rw [if_neg h1] at hdec
        by_cases h2 : c < mr
        · exact h2
        · rw [if_neg h2] at hdec
          exact absurd hdec (by decide)
    simpa [increment_retry_node] using hlt

/-- C3 amended-claim witness: a lead already at the cap stays at the
cap through the webhook path, and the workflow's guarded increment at
`retry_count = 2` under `max_retries = 3` persists a value within the
cap. -/
theorem retry_count_bound_split_witness :
    ((handleMissedCall ⟨true, true, true, some "wa_fallback"⟩
        (RetryManager.make 3 [1/2, 24] "hours") 0
        ⟨"missed", 3, none, "", false, "", "", false⟩).1.retry_count ≤
      (RetryManager.make 3 [1/2, 24] "hours").max_retries)
    ∧ ((increment_retry_node (RetryManager.make 3 [1/2, 24] "hours") 0 2).1 ≤ 3) :=
  ⟨(retry_count_bound_split ⟨true, true, true, some "wa_fallback"⟩
      (RetryManager.make 3 [1/2, 24] "hours") 0 0
      ⟨"missed", 3, none, "", false, "", "", false⟩ ⟨0, 0, 0, 0⟩ 0 (by decide)).1,
   (retry_count_bound_split ⟨true, true, true, some "wa_fallback"⟩
      (RetryManager.make 3 [1/2, 24] "hours") 0 0
      ⟨"missed", 3, none, "", false, "", "", false⟩ ⟨0, 0, 0, 0⟩ 0
      (by decide)).2.1 "missed" 2 3 (by decide)⟩

/-- C4 counterexample: a lead with `call_status = "pending"` is not
selected by the periodic orchestrator sweep, which queries the
repository with `only_retry=True`. -/
theorem orchestrator_skips_pending_counterexample :
    ((⟨"pending", ""⟩ : SheetRow).call_status = "pending")
    ∧ (orchestratorSelection demoParse 100 [⟨"pending", ""⟩] = []) := by
  decide

/-- C4 amended: every periodic sweep selects exactly the rows whose
status is `missed` or `failed` with a non-empty `next_retry_time` that
is due (`<= now`) or unparseable; `pending` rows are excluded because
the job passes `only_retry=True`. -/
theorem orchestrator_selection_spec (fromIso : String → Option ℚ) (now : ℚ)
    (rows : List SheetRow) (row : SheetRow) :
    row ∈ orchestratorSelection fromIso now rows ↔
      row ∈ rows
      ∧ (row.call_status = "missed" ∨ row.call_status = "failed")
      ∧ row.next_retry_time ≠ ""
      ∧ (match fromIso row.next_retry_time with
         | some t => t ≤ now
         | none => True) := by
  cases hf : fromIso row.next_retry_time with
  | some t =>
    simp [orchestratorSelection, getPendingLeads, List.mem_filter, hf, and_assoc]
  | none =>
    simp [orchestratorSelection, getPendingLeads, List.mem_filter, hf, and_assoc]

/-- C4 amended-claim witness: a due missed row is selected by the sweep
under the concrete stand-in parser. -/
theorem orchestrator_selection_spec_witness :
    (⟨"missed", "5"⟩ : SheetRow) ∈
      orchestratorSelection demoParse 100 [⟨"missed", "5"⟩] :=
  (orchestrator_selection_spec demoParse 100 [⟨"missed", "5"⟩]
    ⟨"missed", "5"⟩).mpr
    ⟨by decide, Or.inl rfl, by decide, by norm_num [demoParse]⟩

/-- C10: in the sweep query, a missed/failed row with an empty
`next_retry_time` is never selected, while one with a non-empty but
unparseable `next_retry_time` is treated as due and selected. -/
theorem sweep_retry_time_edge_cases (fromIso : String → Option ℚ) (now : ℚ)
    (only_retry : Bool) (rows : List SheetRow) (row : SheetRow)
    (hstatus : row.call_status = "missed" ∨ row.call_status = "failed") :
    (row.next_retry_time = "" →
      row ∉ getPendingLeads fromIso now only_retry rows)
    ∧ (row.next_retry_time ≠ "" → fromIso row.next_retry_time = none →
      row ∈ rows → row ∈ getPendingLeads fromIso now only_retry rows) := by
  have hnp : ¬ row.call_status = "pending" := by
    rcases hstatus with h | h <;> rw [h] <;> decide
  constructor
  · intro hempty hmem
    rw [getPendingLeads, List.mem_filter] at hmem
    simp [hempty, hnp] at hmem
  · intro hne hparse hmem
    rw [getPendingLeads, List.mem_filter]
    refine ⟨hmem, ?_⟩
    rcases hstatus with h | h <;> simp [h, hne, hparse]

/-- C10 witness: the two edge cases at concrete rows under the
stand-in parser. -/
theorem sweep_retry_time_edge_cases_witness :
    ((⟨"missed", ""⟩ : SheetRow) ∉
      getPendingLeads demoParse 0 true [⟨"missed", ""⟩])
    ∧ ((⟨"failed", "not-a-timestamp"⟩ : SheetRow) ∈
      getPendingLeads demoParse 0 true [⟨"failed", "not-a-timestamp"⟩]) :=
  ⟨(sweep_retry_time_edge_cases demoParse 0 true [⟨"missed", ""⟩]
      ⟨"missed", ""⟩ (Or.inl rfl)).1 rfl,
   (sweep_retry_time_edge_cases demoParse 0 true [⟨"failed", "not-a-timestamp"⟩]
      ⟨"failed", "not-a-timestamp"⟩ (Or.inr rfl)).2 (by decide) (by decide)
      (by decide)⟩

/-- C9: every exit of `_call_single_lead` increments `calls_initiated`
exactly once together with exactly one of `calls_successful` or
`calls_failed`, so the identity
`calls_initiated = calls_successful + calls_failed` is preserved; on a
persistence failure after retries the call is still counted successful
and an error is recorded. -/
theorem call_single_lead_counts (j : JobCounters) (rc : Nat) (o : CallOutcome) :
    ((callSingleLead j rc o).1.calls_initiated = j.calls_initiated + 1)
    ∧ ((callSingleLead j rc o).1.calls_successful +
        (callSingleLead j rc o).1.calls_failed =
        j.calls_successful + j.calls_failed + 1)
    ∧ (j.calls_initiated = j.calls_successful + j.calls_failed →
        (callSingleLead j rc o).1.calls_initiated =
          (callSingleLead j rc o).1.calls_successful +
          (callSingleLead j rc o).1.calls_failed)
    ∧ ((callSingleLead j rc .initiatedPersistFailed).1.calls_successful =
         j.calls_successful + 1
       ∧ (callSingleLead j rc .initiatedPersistFailed).1.errors = j.errors + 1) := by
  cases o <;> simp [callSingleLead] <;> omega

/-- C9 witness: the counter identity at a concrete counter state, on the
persistence-failure exit. -/
theorem call_single_lead_counts_witness :
    (callSingleLead ⟨5, 3, 2, 1⟩ 0 .initiatedPersistFailed).1.calls_initiated =
      (callSingleLead ⟨5, 3, 2, 1⟩ 0 .initiatedPersistFailed).1.calls_successful +
      (callSingleLead ⟨5, 3, 2, 1⟩ 0 .initiatedPersistFailed).1.calls_failed :=
  (call_single_lead_counts ⟨5, 3, 2, 1⟩ 0 .initiatedPersistFailed).2.2.1 (by decide)

/-- A batch with no cancellation in sight calls every lead. -/
theorem runBatchLeads_none {α : Type} (k : Nat) (b : List α) :
    runBatchLeads none k b = (b, k + b.length) := by
  induction b generalizing k with
  | nil => simp [runBatchLeads]
  | cons x xs ih =>
    simp [runBatchLeads, cancelledAt, ih (k + 1)]
    omega

/-- A worker with no cancellation in sight runs every batch and never
breaks out. -/
theorem runWorkerAux_none {α : Type} (k : Nat) (bs : List (List α)) :
    (runWorkerAux none k bs).1 = bs ∧ (runWorkerAux none k bs).2.2 = false := by
  induction bs generalizing k with
  | nil => simp [runWorkerAux]
  | cons b bs ih =>
    simp [runWorkerAux, cancelledAt, runBatchLeads_none]
    exact ih _

/-- C8: the lead list is partitioned into consecutive
`parallel_calls`-sized batches (12 leads at width 5 make batches of
5, 5 and 2); an uncancelled run starts exactly those batches and ends
`"completed"`; once cancellation is visible, neither the pre-batch
check nor the per-call check lets anything further start; and a job
cancelled after its first batch never starts batch 2 and ends
`"cancelled"`. -/
theorem batch_worker_partition_and_cancel :
    (∀ (leads : List Nat) (p : Nat),
      runWorker none leads p = (chunks p leads, "completed"))
    ∧ ((chunks 5 (List.range 12)).map List.length = [5, 5, 2])
    ∧ (∀ (c k : Nat) (bs : List (List Nat)), c ≤ k →
        (runWorkerAux (some c) k bs).1 = [])
    ∧ (∀ (c k : Nat) (b : List Nat), c ≤ k →
        (runBatchLeads (some c) k b).1 = [])
    ∧ (runWorker (some 7) (List.range 12) 5 = ([[0, 1, 2, 3, 4]], "cancelled")) := by
  refine ⟨?_, by decide, ?_, ?_, by decide⟩
  · intro leads p
    unfold runWorker
    have h := runWorkerAux_none (α := Nat) 0 (chunks p leads)
    simp [cancelledAt, h.1]
  · intro c k bs hck
    cases bs with
    | nil => rfl
    | cons b bs => simp [runWorkerAux, cancelledAt, hck]
  · intro c k b hck
    cases b with
    | nil => rfl
    | cons x xs => simp [runBatchLeads, cancelledAt, hck]

/-- C8 witness: the cancellation conjuncts applied at concrete
checkpoints, plus the concrete partition. -/
theorem batch_worker_partition_and_cancel_witness :
    ((runWorkerAux (some 2) 5 [[1, 2], [3]]).1 = ([] : List (List Nat)))
    ∧ ((runBatchLeads (some 0) 4 [9, 9]).1 = ([] : List Nat))
    ∧ (runWorker none (List.range 12) 5 = (chunks 5 (List.range 12), "completed")) :=
  ⟨batch_worker_partition_and_cancel.2.2.1 2 5 [[1, 2], [3]] (by decide),
   batch_worker_partition_and_cancel.2.2.2.1 0 4 [9, 9] (by decide),
   batch_worker_partition_and_cancel.1 (List.range 12) 5⟩

/-- Pushing a day of minutes past `dayStart`. -/
theorem dayStart_add_day (t : Nat) : dayStart (t + 1440) = dayStart t + 1440 := by
  unfold dayStart
  rw [Nat.add_div_right t (by norm_num)]
  generalize t / 1440 = q
  ring

/-- C7 counterexample: on `"call back tomorrow at 17:00"` the code's
tomorrow rule fires (its am/pm marker is optional) and yields tomorrow
17:00, while the claim's rule list — where rule (a) requires `(am|pm)`
and no other rule matches — yields the default `now + 24h`; at
`now = 720` (Monday 12:00) the two differ. -/
theorem callback_claim_rules_counterexample :
    (extractCallbackRequest 720 "call back tomorrow at 17:00" none = some 2460)
    ∧ (claimExtractCallbackRequest 720 "call back tomorrow at 17:00" none =
        some 2160)
    ∧ ((2460 : Nat) ≠ 720 + 24 * 60) := by
  decide

/-- C7 amended: the parser applies its rules in fixed order with first
match winning — rule (a) `tomorrow [at] H[:MM] [am|pm]` (the am/pm
marker optional, the hour read as given when it is absent), then (b)
`[today] [at] H[:MM] (am|pm)` rolled to tomorrow if already past, then
(c) `in N hour(s)/minute(s)`, then (d) a weekday name at 10:00 rolling
a full week when today is named, and otherwise (e) the callback
defaults to `now + 24h`.  In particular `"call back tomorrow at 5pm"`
gives tomorrow 17:00, `"in 2 hours"` gives now+2h, `"call back
tuesday"` gives next Tuesday 10:00, and `"call back tomorrow at
17:00"` also gives tomorrow 17:00. -/
theorem callback_parser_rules (now : Nat) :
    (extractCallbackRequest now "call back tomorrow at 5pm" none =
      some (dayStart now + 1440 + 17 * 60))
    ∧ (parseCallbackTime now "in 2 hours" = some (now + 120))
    ∧ (extractCallbackRequest 720 "call back tuesday" none =
      some (1440 + 10 * 60))
    ∧ (extractCallbackRequest 2160 "call back tuesday" none =
      some (1440 + 7 * 1440 + 10 * 60))
    ∧ (extractCallbackRequest now "please call back when possible" none =
      some (now + 24 * 60))
    ∧ (extractCallbackRequest now "call back tomorrow at 17:00" none =
      some (dayStart now + 1440 + 17 * 60))
    ∧ (∀ (text : String) (h m : Nat) (p : Option String),
        mpSearch pTomorrow (lowerStr text).data = some (h, m, p) →
        parseCallbackTime now text =
          some (replaceHM (now + 1440) (applyPeriod h p) m)) := by
  refine ⟨?_, rfl, by decide, by decide, rfl, ?_, ?_⟩
  · have h1 : extractCallbackRequest now "call back tomorrow at 5pm" none =
        some (replaceHM (now + 1440) 17 0) := rfl
    rw [h1]
    simp only [replaceHM, dayStart_add_day]
  · have h1 : extractCallbackRequest now "call back tomorrow at 17:00" none =
        some (replaceHM (now + 1440) 17 0) := rfl
    rw [h1]
    simp only [replaceHM, dayStart_add_day]
  · intro text h m p hmatch
    simp [parseCallbackTime, hmatch]

/-- C7 amended-claim witness: the first-match conjunct applied at a
concrete phrase. -/
theorem callback_parser_rules_witness :
    parseCallbackTime 720 "tomorrow 6am" =
      some (replaceHM (720 + 1440) (applyPeriod 6 (some "am")) 0) :=
  (callback_parser_rules 720).2.2.2.2.2.2 "tomorrow 6am" 6 0 (some "am")
    (by decide)

end Presales
